import Mathlib

/-!
Shallow embedding of src/js/main.js, the client-side behavior layer of a
small-business marketing website: the contact-form field validator and
submission controller, the before/after comparison slider, the scroll-reveal
observer, the scroll-depth analytics tracker and the top-level component
initialization sequence.  Pure fragments of the JavaScript become Lean
functions; DOM state touched by a handler becomes an explicit state record
threaded through the handler's Lean counterpart.
-/

/-- Character class of the JavaScript whitespace escape in regexes and of
String.prototype.trim: tab..carriage-return, space, NBSP, Ogham space mark,
the Unicode space separators U+2000..U+200A, line/paragraph separators,
narrow no-break space, medium mathematical space, ideographic space and BOM. -/
def jsWhitespace (c : Char) : Bool :=
  let n := c.toNat
  (decide (0x9 ≤ n) && decide (n ≤ 0xD)) || n == 0x20 || n == 0xA0 ||
  n == 0x1680 || (decide (0x2000 ≤ n) && decide (n ≤ 0x200A)) ||
  n == 0x2028 || n == 0x2029 || n == 0x202F || n == 0x205F ||
  n == 0x3000 || n == 0xFEFF

/-- JavaScript String.prototype.trim as used on every field value:
drop whitespace from both ends. -/
def jsTrim (s : String) : String :=
  String.mk (((s.toList.dropWhile jsWhitespace).reverse.dropWhile
    jsWhitespace).reverse)

/-- A character admitted by the bracket class of the email regex in
isValidEmail: anything that is neither whitespace nor the at-sign. -/
def emailAtomChar (c : Char) : Bool := !jsWhitespace c && c != '@'

/-- ContactForm.isValidEmail: the anchored regex demanding a non-empty
run of non-whitespace non-at characters, an at-sign, another such
non-empty run, a dot, and a final such non-empty run.  A string matches
exactly when it splits at positions i (the at-sign) and j (a dot) with
non-empty pieces before i, between i and j, and after j, every character
other than position i drawn from the bracket class. -/
def isValidEmail (s : String) : Bool :=
  let cs := s.toList
  let n := cs.length
  (List.range n).any fun i =>
    (List.range n).any fun j =>
      decide (1 ≤ i) && decide (i + 2 ≤ j) && decide (j + 2 ≤ n) &&
      (cs.getD i ' ' == '@') && (cs.getD j ' ' == '.') &&
      ((List.range n).all fun p => p == i || emailAtomChar (cs.getD p ' '))

/-- An ASCII decimal digit, the digit class of the phone regex. -/
def isDigitChar (c : Char) : Bool := decide ('0' ≤ c) && decide (c ≤ '9')

/-- The final block of the phone regex: a run of 8 or 9 digits. -/
def phoneDigitsRun (cs : List Char) : Bool :=
  (cs.length == 8 || cs.length == 9) && cs.all isDigitChar

/-- The phone regex after the optional country code: an optional single
whitespace character, then the 8-9 digit run. -/
def phoneAfterCode (cs : List Char) : Bool :=
  phoneDigitsRun cs ||
  (match cs with
   | c :: rest => jsWhitespace c && phoneDigitsRun rest
   | [] => false)

/-- The whole anchored phone regex of ContactForm.isValidPhone: an
optional country code (plus-359, 359 or a leading 0), an optional
whitespace character, then 8-9 digits.  The optional group is an
alternation, so a string matches when any of the four choices does. -/
def phoneRegexTest (cs : List Char) : Bool :=
  phoneAfterCode cs ||
  (match cs with
   | '+' :: '3' :: '5' :: '9' :: rest => phoneAfterCode rest
   | _ => false) ||
  (match cs with
   | '3' :: '5' :: '9' :: rest => phoneAfterCode rest
   | _ => false) ||
  (match cs with
   | '0' :: rest => phoneAfterCode rest
   | _ => false)

/-- The cleanPhone preprocessing step of ContactForm.isValidPhone:
strip whitespace, hyphens and parentheses everywhere. -/
def cleanPhoneChars (s : String) : List Char :=
  s.toList.filter fun c => !(jsWhitespace c || c == '-' || c == '(' || c == ')')

/-- ContactForm.isValidPhone: clean the input, then test the phone regex. -/
def isValidPhone (s : String) : Bool := phoneRegexTest (cleanPhoneChars s)

/-- A form field as validateField reads it from the DOM: its name
attribute, its type attribute, its current value, and whether it bears
the required attribute. -/
structure FormField where
  name : String
  type : String
  value : String
  required : Bool
  deriving DecidableEq

/-- Outcome of one validateField call: the boolean it returns and the
error message it displays when invalid (empty when valid). -/
structure ValidationResult where
  isValid : Bool
  errorMessage : String
  deriving DecidableEq

/-- Message shown for an empty required field. -/
def msgRequired : String := "Това поле е задължително"

/-- Message shown for a malformed email value. -/
def msgEmail : String := "Моля въведете валиден имейл адрес"

/-- Message shown for a malformed phone value. -/
def msgPhone : String := "Моля въведете валиден телефонен номер"

/-- Message shown for a too-short name value. -/
def msgName : String := "Името трябва да съдържа поне 2 символа"

/-- ContactForm.validateField, pure core: trim the value, then run the
rule chain as the source's if/else-if cascade — required-and-empty,
email pattern, phone pattern, name length, otherwise valid. -/
def validateField (field : FormField) : ValidationResult :=
  let value := jsTrim field.value
  if field.required && value == "" then
    { isValid := false, errorMessage := msgRequired }
  else if field.type == "email" && value != "" && !isValidEmail value then
    { isValid := false, errorMessage := msgEmail }
  else if field.type == "tel" && value != "" && !isValidPhone value then
    { isValid := false, errorMessage := msgPhone }
  else if field.name == "name" && value != "" && decide (value.length < 2) then
    { isValid := false, errorMessage := msgName }
  else
    { isValid := true, errorMessage := "" }

/-- The specification's rule list for the validator, in the spec's stated
order: each rule is a guard on the field and its trimmed value together
with the message produced when the rule fires. -/
def specRules : List ((FormField → String → Bool) × String) :=
  [(fun f v => f.required && v == "", msgRequired),
   (fun f v => f.type == "email" && v != "" && !isValidEmail v, msgEmail),
   (fun f v => f.type == "tel" && v != "" && !isValidPhone v, msgPhone),
   (fun f v => f.name == "name" && v != "" && decide (v.length < 2), msgName)]

/-- The validator as the specification words it: evaluate the rules
first-match-wins; the first rule whose guard holds yields an invalid
result with that rule's message, and when no rule fires the field is
valid with an empty message. -/
def validateFieldSpec (field : FormField) : ValidationResult :=
  let value := jsTrim field.value
  match specRules.find? (fun r => r.1 field value) with
  | some r => { isValid := false, errorMessage := r.2 }
  | none => { isValid := true, errorMessage := "" }

/-- One field of the contact form together with the error UI attached to
it: whether it currently carries the error class (and aria-invalid), and
the text of its associated error element. -/
structure FieldState where
  field : FormField
  errorFlag : Bool
  errorText : String
  deriving DecidableEq

/-- ContactForm.validateField with its DOM side effects: clearErrors
always runs first; when the rule chain rejects the value, showError sets
the error class and the message.  Returns the updated field UI and the
boolean validateField returns. -/
def validateFieldUI (fs : FieldState) : FieldState × Bool :=
  let r := validateField fs.field
  if r.isValid then
    ({ fs with errorFlag := false, errorText := "" }, true)
  else
    ({ fs with errorFlag := true, errorText := r.errorMessage }, false)

/-- ContactForm.validateForm: walk the form's fields in DOM order,
validating (with UI side effects) exactly those bearing the required
attribute, and conjoin their results. -/
def validateFormUI : List FieldState → List FieldState × Bool
  | [] => ([], true)
  | fs :: rest =>
      if fs.field.required then
        let h := validateFieldUI fs
        let t := validateFormUI rest
        (h.1 :: t.1, h.2 && t.2)
      else
        let t := validateFormUI rest
        (fs :: t.1, t.2)

/-- ContactForm.focusFirstError: the first field carrying the error
class, in DOM order, receives focus and is scrolled into view; none when
no field is in error. -/
def focusFirstError (fields : List FieldState) : Option FormField :=
  (fields.find? fun fs => fs.errorFlag).map (·.field)

/-- What a submit event leads to: either the handler aborts, focusing and
scrolling to the given field (none when no field carries the error
class), or submitForm is invoked with the captured form data. -/
inductive SubmitOutcome where
  | aborted (focused : Option FormField)
  | submitted (data : List (String × String))
  deriving DecidableEq

/-- ContactForm.handleSubmit: capture the form data, run validateForm;
when invalid, focus the first error and return without invoking the
submission; when valid, invoke submitForm with the captured data. -/
def handleSubmit (fields : List FieldState) : List FieldState × SubmitOutcome :=
  let formData := fields.map fun fs => (fs.field.name, fs.field.value)
  let v := validateFormUI fields
  if v.2 then (v.1, .submitted formData)
  else (v.1, .aborted (focusFirstError v.1))

/-- The two ways the awaited submission can settle. -/
inductive SubmissionResult where
  | success
  | failure
  deriving DecidableEq

/-- The submit button as submitForm manipulates it: its disabled flag and
its text content. -/
structure ButtonState where
  disabled : Bool
  label : String
  deriving DecidableEq

/-- Everything observable about one run of submitForm: the button state
while the submission is pending, the button state after the handler
finishes, and which banners/resets happened. -/
structure SubmitEffects where
  pendingButton : ButtonState
  finalButton : ButtonState
  successShown : Bool
  errorShown : Bool
  formWasReset : Bool
  deriving DecidableEq

/-- The pending-state label submitForm puts on the button. -/
def pendingLabel : String := "Изпращане..."

/-- ContactForm.submitForm: record the original label, disable and
relabel the button, await the submission; the try arm shows the success
banner and resets the form, the catch arm shows the error banner; the
finally block re-enables the button and restores the original label on
both paths. -/
def submitFormModel (btn : ButtonState) (r : SubmissionResult) : SubmitEffects :=
  let originalText := btn.label
  let pending : ButtonState := { disabled := true, label := pendingLabel }
  let afterTry : SubmitEffects :=
    match r with
    | .success =>
        { pendingButton := pending, finalButton := pending,
          successShown := true, errorShown := false, formWasReset := true }
    | .failure =>
        { pendingButton := pending, finalButton := pending,
          successShown := false, errorShown := true, formWasReset := false }
  { afterTry with
      finalButton := { disabled := false, label := originalText } }

/-- The percentage clamp at the head of updateSlider. -/
def clampPercent (p : ℚ) : ℚ := max 0 (min 100 p)

/-- The slider visual state a before/after container carries: the clip
boundary percentage of the after image (none before the first write), the
handle's style.left percentage (none before the first write), and the
container's aria-valuenow attribute (none before initialization sets it). -/
structure SliderState where
  clipLeft : Option ℚ
  handleLeft : Option ℚ
  ariaValuenow : Option ℚ
  deriving DecidableEq

/-- PortfolioGallery updateSlider: clamp the raw percentage to 0..100,
write it into the after-image clip polygon and the handle's left offset.
It touches nothing else — in particular it leaves aria-valuenow alone. -/
def updateSlider (s : SliderState) (percentage : ℚ) : SliderState :=
  let p := clampPercent percentage
  { s with clipLeft := some p, handleLeft := some p }

/-- The container state right after initBeforeAfterSliders runs: no
inline clip or handle position has been written yet, and aria-valuenow
has been set to 50 by the attribute setup. -/
def initSliderState : SliderState :=
  { clipLeft := none, handleLeft := none, ariaValuenow := some 50 }

/-- The two keys the keydown handler of a slider container reacts to. -/
inductive ArrowKey where
  | left
  | right
  deriving DecidableEq

/-- The JavaScript expression parseFloat(handle.style.left) with a
falsy-guard default of 50: an unset style yields NaN, which is falsy, so
50; a parsed value of 0 is also falsy, so likewise 50; any other parsed
value is returned as-is. -/
def parseFloatOr50 : Option ℚ → ℚ
  | none => 50
  | some v => if v = 0 then 50 else v

/-- The keydown handler of a slider container: read the current handle
position through parseFloatOr50, step it down (ArrowLeft) or up
(ArrowRight) by 5, and hand the result to updateSlider.  It never
consults the drag flag. -/
def sliderKeydown (s : SliderState) (k : ArrowKey) : SliderState :=
  match k with
  | .left => updateSlider s (parseFloatOr50 s.handleLeft - 5)
  | .right => updateSlider s (parseFloatOr50 s.handleLeft + 5)

/-- The scroll-reveal observer's state: which targets are currently
observed and which have been revealed (received the animation class). -/
structure RevealState where
  observed : List Nat
  revealed : List Nat
  deriving DecidableEq

/-- One intersection change delivered to the observer callback for a
target. -/
structure IntersectionEntry where
  target : Nat
  isIntersecting : Bool
  deriving DecidableEq

/-- The ScrollAnimations observer callback on one entry: the observation
primitive only delivers entries for currently observed targets (an entry
for an unobserved target is dropped); an intersecting entry adds the
reveal class and unobserves the target.  The boolean reports whether the
reveal fired. -/
def revealStep (s : RevealState) (e : IntersectionEntry) : RevealState × Bool :=
  if decide (e.target ∈ s.observed) && e.isIntersecting then
    ({ observed := s.observed.erase e.target,
       revealed := s.revealed ++ [e.target] }, true)
  else (s, false)

/-- Run the observer callback over a whole sequence of intersection
changes, collecting the targets whose reveal fired, in order. -/
def revealRun (s : RevealState) : List IntersectionEntry → RevealState × List Nat
  | [] => (s, [])
  | e :: es =>
      let h := revealStep s e
      let t := revealRun h.1 es
      (t.1, (if h.2 then [e.target] else []) ++ t.2)

/-- State of Analytics.trackScrollDepth between scroll events: the
maximum scroll depth reached so far and the milestones already emitted. -/
structure ScrollDepthState where
  maxScroll : Int
  tracked : List Int
  deriving DecidableEq

/-- The milestone percentages trackScrollDepth reports. -/
def milestones : List Int := [25, 50, 75, 90]

/-- One run of the (throttled) scroll handler inside trackScrollDepth,
given the freshly computed scroll percentage: when it exceeds the stored
maximum, the maximum is replaced and every milestone reached for the
first time is emitted; otherwise nothing changes.  This handler is the
only code that touches the state. -/
def trackScrollStep (s : ScrollDepthState) (scrollPercent : Int) : ScrollDepthState :=
  if s.maxScroll < scrollPercent then
    { maxScroll := scrollPercent,
      tracked := s.tracked ++ (milestones.filter fun m =>
        decide (m ≤ scrollPercent) && !s.tracked.contains m) }
  else s

/-- One component constructor the top-level initializer news up, with
whether its constructor throws. -/
structure AppComponent where
  name : String
  throwsOnInit : Bool
  deriving DecidableEq

/-- The body of initializeApp's single try block: construct the
components in order; the first throwing constructor aborts the rest of
the block and control passes to the catch, which logs the error.
Returns the names of the components actually constructed and whether the
catch ran. -/
def runInitSequence : List AppComponent → List String × Bool
  | [] => ([], false)
  | c :: rest =>
      if c.throwsOnInit then ([], true)
      else
        let t := runInitSequence rest
        (c.name :: t.1, t.2)

/-- Observable outcome of initializeApp. -/
structure InitOutcome where
  initialized : List String
  errorLogged : Bool
  deriving DecidableEq

/-- initializeApp: all component constructors run inside one try/catch;
an exception is caught and logged at this top level and never escapes. -/
def initializeApp (comps : List AppComponent) : InitOutcome :=
  { initialized := (runInitSequence comps).1,
    errorLogged := (runInitSequence comps).2 }

/-- The if/else-if cascade of validateField evaluates exactly the
specification's rule list first-match-wins: both functions test the same
guards in the same order and return that rule's message. -/
theorem validateField_matches_spec_rules (f : FormField) :
    validateField f = validateFieldSpec f := by
  unfold validateField validateFieldSpec specRules
  cases h1 : (f.required && jsTrim f.value == "") <;>
  cases h2 : (f.type == "email" && jsTrim f.value != "" &&
    !isValidEmail (jsTrim f.value)) <;>
  cases h3 : (f.type == "tel" && jsTrim f.value != "" &&
    !isValidPhone (jsTrim f.value)) <;>
  cases h4 : (f.name == "name" && jsTrim f.value != "" &&
    decide ((jsTrim f.value).length < 2)) <;>
  simp [List.find?, h1, h2, h3, h4]

/-- Projections of one validateField-with-UI call: the field itself is
untouched. -/
theorem validateFieldUI_field (fs : FieldState) :
    (validateFieldUI fs).1.field = fs.field := by
  cases hval : (validateField fs.field).isValid <;>
    simp [validateFieldUI, hval]

/-- The boolean a validateField-with-UI call returns is the validator's
verdict on the field. -/
theorem validateFieldUI_snd (fs : FieldState) :
    (validateFieldUI fs).2 = (validateField fs.field).isValid := by
  cases hval : (validateField fs.field).isValid <;>
    simp [validateFieldUI, hval]

/-- After a validateField-with-UI call, the error class is present
exactly when the validator rejected the field. -/
theorem validateFieldUI_flag (fs : FieldState) :
    (validateFieldUI fs).1.errorFlag = !(validateField fs.field).isValid := by
  cases hval : (validateField fs.field).isValid <;>
    simp [validateFieldUI, hval]

/-- validateForm does not change which fields the form has. -/
theorem validateFormUI_map_field (fields : List FieldState) :
    (validateFormUI fields).1.map (·.field) = fields.map (·.field) := by
  induction fields with
  | nil => rfl
  | cons fs rest ih =>
      cases h : fs.field.required <;>
        simp [validateFormUI, h, validateFieldUI_field, ih]

/-- validateForm returns true exactly when every field bearing the
required attribute passes the validator; non-required fields are not
consulted at all. -/
theorem validateFormUI_snd (fields : List FieldState) :
    (validateFormUI fields).2 =
      fields.all fun fs => !fs.field.required || (validateField fs.field).isValid := by
  induction fields with
  | nil => rfl
  | cons fs rest ih =>
      cases h : fs.field.required <;>
        simp [validateFormUI, h, validateFieldUI_snd, ih]

/-- On a form whose fields start free of the error class, the first
field carrying the error class after a validateForm pass is the first
required field the validator rejects. -/
theorem validateFormUI_find_error (fields : List FieldState)
    (hclean : ∀ fs ∈ fields, fs.errorFlag = false) :
    ((validateFormUI fields).1.find? (fun fs => fs.errorFlag)).map (·.field) =
      (fields.find? fun fs =>
        fs.field.required && !(validateField fs.field).isValid).map (·.field) := by
  induction fields with
  | nil => rfl
  | cons fs rest ih =>
      have hfs : fs.errorFlag = false := hclean fs (List.mem_cons_self fs rest)
      have hrest : ∀ x ∈ rest, x.errorFlag = false :=
        fun x hx => hclean x (List.mem_cons_of_mem fs hx)
      cases hreq : fs.field.required
      · simp [validateFormUI, hreq, List.find?, hfs, ih hrest]
      · cases hval : (validateField fs.field).isValid
        · have hflag : (validateFieldUI fs).1.errorFlag = true := by
            simp [validateFieldUI_flag, hval]
          simp [validateFormUI, hreq, List.find?, hflag, hval,
            validateFieldUI_field]
        · have hflag : (validateFieldUI fs).1.errorFlag = false := by
            simp [validateFieldUI_flag, hval]
          simp [validateFormUI, hreq, List.find?, hflag, hval, ih hrest]

/-- Claim C1: updateSlider applies to both visual writes (the after-image
clip boundary and the handle's left offset) exactly the input percentage
clamped to the interval 0..100; the clamp sends -10 to 0, 150 to 100 and
42 to itself, so no visual write ever uses a value below 0 or above 100. -/
theorem C1_updateSlider_clamps :
    (∀ (s : SliderState) (p : ℚ),
        (updateSlider s p).clipLeft = some (clampPercent p) ∧
        (updateSlider s p).handleLeft = some (clampPercent p) ∧
        0 ≤ clampPercent p ∧ clampPercent p ≤ 100) ∧
    clampPercent (-10) = 0 ∧ clampPercent 150 = 100 ∧ clampPercent 42 = 42 := by
  refine ⟨fun s p => ⟨rfl, rfl, le_max_left 0 _, ?_⟩, by decide, by decide, by decide⟩
  exact max_le (by norm_num) (min_le_left 100 p)

/-- Claim C4: on both settlement paths of the submission, submitForm
disables and relabels the submit button while the submission is pending,
and the finally block restores the enabled state and the original label. -/
theorem C4_submitForm_restores_button :
    ∀ (btn : ButtonState) (r : SubmissionResult),
      (submitFormModel btn r).pendingButton.disabled = true ∧
      (submitFormModel btn r).pendingButton.label = pendingLabel ∧
      (submitFormModel btn r).finalButton.disabled = false ∧
      (submitFormModel btn r).finalButton.label = btn.label := by
  intro btn r
  cases r <;> exact ⟨rfl, rfl, rfl, rfl⟩

/-- Claim C5 (divergence witness): the keydown handler reads the handle
position through the falsy-guarded parseFloat, so on a slider whose
handle sits at 0 the read falls back to 50 and ArrowRight lands on 55
(the claim demands 5) while ArrowLeft lands on 45 (the claim demands 0);
at 50 and 3 the handler behaves as the claim states. -/
theorem C5_keydown_zero_divergence :
    (sliderKeydown ⟨some 0, some 0, some 50⟩ ArrowKey.right).handleLeft
      = some 55 ∧
    (sliderKeydown ⟨some 0, some 0, some 50⟩ ArrowKey.left).handleLeft
      = some 45 ∧
    (sliderKeydown ⟨some 50, some 50, some 50⟩ ArrowKey.right).handleLeft
      = some 55 ∧
    (sliderKeydown ⟨some 3, some 3, some 50⟩ ArrowKey.left).handleLeft
      = some 0 := by
  refine ⟨?_, ?_, ?_, ?_⟩ <;>
    norm_num [sliderKeydown, updateSlider, clampPercent, parseFloatOr50]

/-- Claim C6, counterexample: after initialization sets aria-valuenow to
50, a call of updateSlider with percentage 30 applies 30 to the clip
boundary yet leaves aria-valuenow at 50, so aria-valuenow does not equal
the applied percentage. -/
theorem C6_cex_aria_not_reflected :
    (updateSlider initSliderState 30).clipLeft = some 30 ∧
    (updateSlider initSliderState 30).ariaValuenow = some 50 ∧
    (updateSlider initSliderState 30).ariaValuenow ≠ some 30 := by
  refine ⟨?_, ?_, ?_⟩ <;> decide

/-- Claim C6, amended: updateSlider never writes aria-valuenow — every
call leaves the attribute exactly as it was, so after initialization it
stays at 50 across any sequence of pointer or keyboard updates (keyboard
updates also go through updateSlider). -/
theorem C6_aria_never_updated :
    (∀ (s : SliderState) (p : ℚ),
      (updateSlider s p).ariaValuenow = s.ariaValuenow) ∧
    (∀ ps : List ℚ,
      (ps.foldl updateSlider initSliderState).ariaValuenow = some 50) := by
  have key : ∀ (ps : List ℚ) (s : SliderState),
      (ps.foldl updateSlider s).ariaValuenow = s.ariaValuenow := by
    intro ps
    induction ps with
    | nil => intro s; rfl
    | cons p ps ih => intro s; simpa using ih (updateSlider s p)
  exact ⟨fun s p => rfl, fun ps => key ps initSliderState⟩

/-- Claim C8: the max-scroll-depth tracker never decreases — one run of
the scroll handler leaves it at least as large as before, and hence its
value after any sequence of scroll events is at least its value before;
in this embedding trackScrollStep is the only operation on the state. -/
theorem C8_maxScroll_monotone :
    (∀ (s : ScrollDepthState) (p : Int),
      s.maxScroll ≤ (trackScrollStep s p).maxScroll) ∧
    (∀ (ps : List Int) (s : ScrollDepthState),
      s.maxScroll ≤ (ps.foldl trackScrollStep s).maxScroll) := by
  have step : ∀ (s : ScrollDepthState) (p : Int),
      s.maxScroll ≤ (trackScrollStep s p).maxScroll := by
    intro s p
    unfold trackScrollStep
    split
    · exact le_of_lt (by assumption)
    · exact le_refl _
  refine ⟨step, ?_⟩
  intro ps
  induction ps with
  | nil => intro s; exact le_refl _
  | cons p ps ih => intro s; exact le_trans (step s p) (ih (trackScrollStep s p))

/-- Claim C9, counterexample: with the first component's constructor
throwing and a second well-behaved component following it, the single
top-level try/catch logs the error but the second component is never
initialized — the isolation the claim asserts does not hold. -/
theorem C9_cex_no_isolation :
    (initializeApp [⟨"MobileMenu", true⟩,
      ⟨"HeaderScrollEffect", false⟩]).errorLogged = true ∧
    (initializeApp [⟨"MobileMenu", true⟩,
      ⟨"HeaderScrollEffect", false⟩]).initialized = [] ∧
    "HeaderScrollEffect" ∉ (initializeApp [⟨"MobileMenu", true⟩,
      ⟨"HeaderScrollEffect", false⟩]).initialized := by
  refine ⟨?_, ?_, ?_⟩ <;> decide

/-- Claim C9, amended: an exception thrown while a component starts up is
caught and logged by the one top-level try/catch, so startup never
crashes, but every component after the throwing one is skipped: exactly
the components strictly before the first throwing one are initialized,
and the error is logged precisely when some component throws. -/
theorem C9_prefix_until_throw :
    ∀ comps : List AppComponent,
      (initializeApp comps).initialized =
        (comps.takeWhile fun c => !c.throwsOnInit).map (·.name) ∧
      (initializeApp comps).errorLogged = comps.any (·.throwsOnInit) := by
  intro comps
  induction comps with
  | nil => exact ⟨rfl, rfl⟩
  | cons c rest ih =>
      have ih1 := ih.1
      have ih2 := ih.2
      simp only [initializeApp] at ih1 ih2 ⊢
      cases hc : c.throwsOnInit
      · simpa [runInitSequence, hc, List.takeWhile_cons] using ⟨ih1, ih2⟩
      · simp [runInitSequence, hc, List.takeWhile_cons]



/-- Claim C2: validateField evaluates the rules first-match-wins in the
order required-empty, email pattern, phone pattern, name length,
otherwise valid (it coincides with the specification's rule-list
evaluation), and on the spec's sample inputs: an empty required field is
invalid with the required message, a well-formed email is valid, a
malformed email is invalid, the sample Bulgarian phone number is valid,
a three-digit phone is invalid, a one-character name is invalid and a
two-character name is valid.  Being a total Lean function, it always
returns a result. -/
theorem C2_validateField_rule_order :
    (∀ f : FormField, validateField f = validateFieldSpec f) ∧
    validateField ⟨"message", "textarea", "", true⟩ = ⟨false, msgRequired⟩ ∧
    validateField ⟨"email", "email", "a@b.c", true⟩ = ⟨true, ""⟩ ∧
    validateField ⟨"email", "email", "not-an-email", true⟩ = ⟨false, msgEmail⟩ ∧
    validateField ⟨"phone", "tel", "0888123456", true⟩ = ⟨true, ""⟩ ∧
    validateField ⟨"phone", "tel", "123", true⟩ = ⟨false, msgPhone⟩ ∧
    validateField ⟨"name", "text", "A", true⟩ = ⟨false, msgName⟩ ∧
    validateField ⟨"name", "text", "Al", true⟩ = ⟨true, ""⟩ := by
  refine ⟨validateField_matches_spec_rules, ?_, ?_, ?_, ?_, ?_, ?_, ?_⟩ <;>
    decide

/-- Claim C3: on a submit event over a form whose fields start free of
the error class, if some required field fails validation then the
handler aborts — the submission operation is never invoked, no field is
changed (only error decorations are), and the field focused and scrolled
into view is the first required field the validator rejects. -/
theorem C3_invalid_blocks_submission (fields : List FieldState)
    (hclean : ∀ fs ∈ fields, fs.errorFlag = false)
    (hbad : ∃ fs ∈ fields, fs.field.required = true ∧
      (validateField fs.field).isValid = false) :
    (handleSubmit fields).2 = SubmitOutcome.aborted
      ((fields.find? fun fs =>
        fs.field.required && !(validateField fs.field).isValid).map (·.field)) ∧
    (handleSubmit fields).1.map (·.field) = fields.map (·.field) ∧
    ∀ d, (handleSubmit fields).2 ≠ SubmitOutcome.submitted d := by
  obtain ⟨fs0, hmem, hreq0, hval0⟩ := hbad
  have hall : (validateFormUI fields).2 = false := by
    rw [validateFormUI_snd]
    rcases h : fields.all fun fs =>
        !fs.field.required || (validateField fs.field).isValid with _ | _
    · rfl
    · exfalso
      have := List.all_eq_true.mp h fs0 hmem
      rw [hreq0, hval0] at this
      simp at this
  have houtcome : (handleSubmit fields).2 = SubmitOutcome.aborted
      (focusFirstError (validateFormUI fields).1) := by
    unfold handleSubmit
    simp [hall]
  refine ⟨?_, ?_, ?_⟩
  · rw [houtcome]
    unfold focusFirstError
    rw [validateFormUI_find_error fields hclean]
  · have hfields : (handleSubmit fields).1 = (validateFormUI fields).1 := by
      unfold handleSubmit
      simp [hall]
    rw [hfields, validateFormUI_map_field]
  · intro d hd
    rw [houtcome] at hd
    exact SubmitOutcome.noConfusion hd

/-- Witness for claim C3 at a one-field form: an empty required name
field; the handler aborts, focuses that field, and submits nothing. -/
theorem C3_invalid_blocks_submission_witness :
    (∀ fs ∈ ([⟨⟨"name", "text", "", true⟩, false, ""⟩] : List FieldState),
      fs.errorFlag = false) ∧
    (∃ fs ∈ ([⟨⟨"name", "text", "", true⟩, false, ""⟩] : List FieldState),
      fs.field.required = true ∧ (validateField fs.field).isValid = false) ∧
    (handleSubmit [⟨⟨"name", "text", "", true⟩, false, ""⟩]).2 =
      SubmitOutcome.aborted ((([⟨⟨"name", "text", "", true⟩, false, ""⟩] :
        List FieldState).find? fun fs =>
          fs.field.required && !(validateField fs.field).isValid).map
            (·.field)) ∧
    (handleSubmit [⟨⟨"name", "text", "", true⟩, false, ""⟩]).1.map (·.field) =
      ([⟨⟨"name", "text", "", true⟩, false, ""⟩] :
        List FieldState).map (·.field) ∧
    (handleSubmit [⟨⟨"name", "text", "", true⟩, false, ""⟩]).2 ≠
      SubmitOutcome.submitted [] :=
  ⟨by decide, by decide,
    (C3_invalid_blocks_submission _ (by decide) (by decide)).1,
    (C3_invalid_blocks_submission _ (by decide) (by decide)).2.1,
    (C3_invalid_blocks_submission _ (by decide) (by decide)).2.2 []⟩

/-- Claim C10: validateForm consults only fields bearing the required
attribute, so whenever every required field passes the validator the
handler invokes the submission with the captured name/value pairs — a
non-required field whose value the validator would reject cannot block
submission. -/
theorem C10_optional_invalid_never_blocks (fields : List FieldState)
    (hreq : ∀ fs ∈ fields, fs.field.required = true →
      (validateField fs.field).isValid = true) :
    (handleSubmit fields).2 = SubmitOutcome.submitted
      (fields.map fun fs => (fs.field.name, fs.field.value)) := by
  have hall : (validateFormUI fields).2 = true := by
    rw [validateFormUI_snd]
    refine List.all_eq_true.mpr ?_
    intro fs hmem
    cases h : fs.field.required
    · simp
    · simp [hreq fs hmem h]
  unfold handleSubmit
  simp [hall]

/-- Witness for claim C10: a form with a valid required name field and a
non-required email field holding a value the validator rejects; the
submission is still invoked with both name/value pairs. -/
theorem C10_optional_invalid_never_blocks_witness :
    (validateField ⟨"email", "email", "not-an-email", false⟩).isValid = false ∧
    (∀ fs ∈ ([⟨⟨"name", "text", "Ivan", true⟩, false, ""⟩,
        ⟨⟨"email", "email", "not-an-email", false⟩, false, ""⟩] :
          List FieldState),
      fs.field.required = true → (validateField fs.field).isValid = true) ∧
    (handleSubmit [⟨⟨"name", "text", "Ivan", true⟩, false, ""⟩,
      ⟨⟨"email", "email", "not-an-email", false⟩, false, ""⟩]).2 =
      SubmitOutcome.submitted
        (([⟨⟨"name", "text", "Ivan", true⟩, false, ""⟩,
          ⟨⟨"email", "email", "not-an-email", false⟩, false, ""⟩] :
            List FieldState).map fun fs => (fs.field.name, fs.field.value)) :=
  ⟨by decide, by decide,
    C10_optional_invalid_never_blocks _ (by decide)⟩

/-- Over any run of the observer callback, a target's reveal fires at
most as often as the target occurs in the observed list: each firing
consumes one occurrence (the target is unobserved), and entries for
unobserved targets are dropped. -/
theorem revealRun_count_le (es : List IntersectionEntry) :
    ∀ (s : RevealState) (t : Nat),
      List.count t (revealRun s es).2 ≤ List.count t s.observed := by
  induction es with
  | nil => intro s t; simp [revealRun]
  | cons e es ih =>
      intro s t
      cases hg : (decide (e.target ∈ s.observed) && e.isIntersecting)
      · have hstep : revealStep s e = (s, false) := by
          simp only [revealStep, hg]
          rfl
        simp only [revealRun, hstep]
        simpa using ih s t
      · have hmem : e.target ∈ s.observed := by
          have h1 := (Bool.and_eq_true _ _).mp hg
          exact of_decide_eq_true h1.1
        have hstep : revealStep s e =
            ({ observed := s.observed.erase e.target,
               revealed := s.revealed ++ [e.target] }, true) := by
          simp only [revealStep, hg]
          rfl
        simp only [revealRun, hstep, if_true]
        by_cases ht : t = e.target
        · subst ht
          have h1 := ih ⟨s.observed.erase e.target,
            s.revealed ++ [e.target]⟩ e.target
          simp only [List.count_erase_self] at h1
          have h2 : 0 < List.count e.target s.observed :=
            List.count_pos_iff.mpr hmem
          simp only [List.singleton_append, List.count_cons_self]
          omega
        · have h1 := ih ⟨s.observed.erase e.target, s.revealed ++ [e.target]⟩ t
          simp only [List.count_erase_of_ne ht] at h1
          simpa [List.singleton_append, List.count_cons_of_ne ht] using h1

/-- Claim C7: starting from the observer's initial state, in which each
reveal target is observed exactly once and nothing is revealed, a
target's reveal fires at most once over any sequence of intersection
changes — the first firing unobserves the target, so later intersection
toggles can never re-trigger it. -/
theorem C7_reveal_at_most_once (targets : List Nat)
    (events : List IntersectionEntry) (t : Nat) (hnodup : targets.Nodup) :
    List.count t (revealRun ⟨targets, []⟩ events).2 ≤ 1 :=
  le_trans (revealRun_count_le events ⟨targets, []⟩ t)
    (List.nodup_iff_count_le_one.mp hnodup t)

/-- Witness for claim C7: two observed targets; target 1 intersects,
leaves, and intersects again, yet its reveal fires exactly once. -/
theorem C7_reveal_at_most_once_witness :
    ([1, 2] : List Nat).Nodup ∧
    List.count 1 (revealRun ⟨[1, 2], []⟩
      [⟨1, true⟩, ⟨1, false⟩, ⟨1, true⟩]).2 ≤ 1 ∧
    List.count 1 (revealRun ⟨[1, 2], []⟩
      [⟨1, true⟩, ⟨1, false⟩, ⟨1, true⟩]).2 = 1 :=
  ⟨by decide,
    C7_reveal_at_most_once [1, 2] [⟨1, true⟩, ⟨1, false⟩, ⟨1, true⟩] 1
      (by decide),
    by decide⟩
